import Mathlib

/-!
Shallow embedding of the `artnet-hue-entertainment` streaming core.

The definitions below are translated from the TypeScript sources:

* `src/src/artnet.ts` — the `HueDtlsController` class: UUID length assertion,
  packet encoder (`sendUpdatePacket`), send path (`sendUpdate`), keepalive
  (`updateKeepalive`), connection lifecycle (`connect` / `close`).
* `src/src/hue-runner.ts` — `HueEntertainmentRunner.start`: channel-set
  validation against the remote entertainment configuration, ordered
  control-plane effects.
* `src/src/cli.ts` — `startProcess`: per-hub startup-input validation and the
  all-hubs start sequence.

Machine integers are modelled as `Nat` (bytes, with explicit `% 256` / `% 65536`
where the source truncates) and clock values as `Int` (JavaScript millisecond
timestamps). Buffers are `List Nat` of byte values.
-/

namespace ArtnetHue

/-- `ColorUpdate` from `artnet.ts`: entertainment channel id plus a 16-bit RGB
triple (`color: [number, number, number]`, modelled as fields `r`, `g`, `b`). -/
structure ColorUpdate where
  channelId : Nat
  r : Nat
  g : Nat
  b : Nat
deriving DecidableEq, Repr

/-- `PACKET_HEADER` from `artnet.ts`: the ASCII bytes of `"HueStream"`. -/
def PACKET_HEADER : List Nat := [0x48, 0x75, 0x65, 0x53, 0x74, 0x72, 0x65, 0x61, 0x6d]

/-- `Buffer.writeUInt16BE`: a 16-bit value as two big-endian bytes. -/
def u16be (v : Nat) : List Nat := [v / 256 % 256, v % 256]

/-- One 7-byte channel record of the update packet: channel id truncated to its
low 8 bits (`update.channelId & 0xff`), then R, G, B as 16-bit big-endian. -/
def recordBytes (u : ColorUpdate) : List Nat :=
  u.channelId % 256 :: (u16be u.r ++ u16be u.g ++ u16be u.b)

/-- Node `'ascii'` string-to-buffer encoding: one byte per character,
truncated to the low 8 bits of the code point. -/
def asciiBytes (s : String) : List Nat := s.data.map (fun c => c.toNat % 256)

/-- The 36-byte UUID field written by `message.write(uuid, 16, 36, 'ascii')`
into the zero-initialised buffer: at most 36 bytes of the string, the rest of
the field keeping the `Buffer.alloc` zero fill. -/
def uuidField (uuid : String) : List Nat :=
  (asciiBytes uuid).take 36 ++ List.replicate (36 - min uuid.length 36) 0

/-- Bytes 0..15 of the update packet: magic, major version 2, minor version 0,
sequence 0, reserved 0x0000, color space 0 (RGB), reserved 0. -/
def fixedHeader : List Nat := PACKET_HEADER ++ [2, 0, 0, 0, 0, 0, 0]

/-- `sendUpdatePacket`'s buffer contents (from `artnet.ts`): 16-byte fixed
header, 36-byte entertainment-configuration UUID, then one 7-byte record per
update, in list order. -/
def sendUpdatePacketBytes (uuid : String) (updates : List ColorUpdate) : List Nat :=
  fixedHeader ++ uuidField uuid ++ (updates.map recordBytes).flatten

/-- `assertUuid36` from `artnet.ts` as an acceptance predicate: the constructor
throws unless the id is a (string of) length exactly 36. -/
def assertUuid36 (id : String) : Bool := id.length == 36

/-- Modelled from the spec: "`entertainmentConfigurationId` is a 36-character
string matching the UUID shape (8-4-4-4-12 hex with hyphens)". A character is a
hexadecimal digit. -/
def isHexDigit (c : Char) : Bool :=
  ('0' ≤ c && c ≤ '9') || ('a' ≤ c && c ≤ 'f') || ('A' ≤ c && c ≤ 'F')

/-- Modelled from the spec: the 8-4-4-4-12 UUID shape — length 36, hyphens at
positions 8, 13, 18, 23, hexadecimal digits everywhere else. -/
def isUuidShape36 (s : String) : Bool :=
  s.length == 36 &&
    s.data.enum.all (fun p =>
      if p.1 = 8 || p.1 = 13 || p.1 = 18 || p.1 = 23 then p.2 == '-'
      else isHexDigit p.2)

/-- The mutable fields of `HueDtlsController` that the send/keepalive/close
paths read or write. `hasSocket` models `this.socket !== null`;
`keepaliveActive` models the `setInterval` handle being scheduled. -/
structure DtlsState where
  opened : Bool
  hasSocket : Bool
  skip : Bool
  lastUpdate : Option (List ColorUpdate)
  lastUpdateTimestamp : Option Int
  keepaliveActive : Bool
  lastPacketSentAtMs : Int
deriving DecidableEq, Repr

/-- Field initialisers of `HueDtlsController` (constructor state). -/
def initState : DtlsState :=
  { opened := false, hasSocket := false, skip := false, lastUpdate := none,
    lastUpdateTimestamp := none, keepaliveActive := false, lastPacketSentAtMs := 0 }

/-- `minIntervalMs` readonly field: 40 ms. -/
def minIntervalMs : Int := 40

/-- Result discriminants of `sendUpdate`. -/
inductive SendResult
  | sent
  | notOpen
  | skipped
  | throttled
deriving DecidableEq, Repr

/-- `sendUpdatePacket`: returns `true` and writes the encoded buffer to the
socket when `opened` (the optional-chained write happens only when the socket
is non-null); returns `false` and writes nothing otherwise. -/
def sendUpdatePacketStep (uuid : String) (s : DtlsState) (updates : List ColorUpdate) :
    Bool × Option (List Nat) :=
  if s.opened then
    (true, if s.hasSocket then some (sendUpdatePacketBytes uuid updates) else none)
  else
    (false, none)

/-- `sendUpdate`: guard order as in the source — `not_open` when the socket is
null or not opened; the (dead) `skip` gate; cache `lastUpdate` and
`lastUpdateTimestamp`; the min-interval throttle gate, active only when
`lastPacketSentAtMs` is non-zero (JS truthiness); then the packet send.
Returns the result, the successor state, and the bytes written (if any). -/
def sendUpdate (uuid : String) (s : DtlsState) (now : Int) (updates : List ColorUpdate) :
    SendResult × DtlsState × Option (List Nat) :=
  if s.hasSocket = false ∨ s.opened = false then
    (SendResult.notOpen, s, none)
  else if s.skip then
    (SendResult.skipped, { s with skip := false }, none)
  else
    let s1 := { s with lastUpdate := some updates, lastUpdateTimestamp := some now }
    if s1.lastPacketSentAtMs ≠ 0 ∧ now - s1.lastPacketSentAtMs < minIntervalMs then
      (SendResult.throttled, s1, none)
    else
      let ok := sendUpdatePacketStep uuid s1 updates
      if ok.1 then (SendResult.sent, { s1 with lastPacketSentAtMs := now }, ok.2)
      else (SendResult.notOpen, s1, ok.2)

/-- The early-return test of `updateKeepalive`: a send attempt was serviced
within the last 2000 ms (`lastUpdateTimestamp !== null && now - ts <= 2000`). -/
def recentlyServiced (s : DtlsState) (now : Int) : Bool :=
  match s.lastUpdateTimestamp with
  | some ts => decide (now - ts ≤ 2000)
  | none => false

/-- `updateKeepalive` body: return early when recently serviced; otherwise
resend the last-known update (if one exists) through `sendUpdatePacket`,
which bypasses the throttle gate. Yields the bytes written, if any. -/
def updateKeepalive (uuid : String) (s : DtlsState) (now : Int) : Option (List Nat) :=
  if recentlyServiced s now then none
  else
    match s.lastUpdate with
    | some u => (sendUpdatePacketStep uuid s u).2
    | none => none

/-- One keepalive timer firing: the handler runs only while the interval
created in `connect()` is scheduled. -/
def keepaliveTick (uuid : String) (s : DtlsState) (now : Int) : Option (List Nat) :=
  if s.keepaliveActive then updateKeepalive uuid s now else none

/-- Externally observable socket effects of `close()`. -/
inductive CloseEffect
  | socketEnd
  | emitClose
deriving DecidableEq, Repr

/-- `close()`: a no-op when not opened; otherwise clear `opened`, end the
socket, and emit `close`. Note the keepalive interval is not cleared. -/
def closeStep (s : DtlsState) : DtlsState × List CloseEffect :=
  if s.opened = false then (s, [])
  else
    ({ s with opened := false },
     (if s.hasSocket then [CloseEffect.socketEnd] else []) ++ [CloseEffect.emitClose])

/-- Events driving the controller: `connect()` (which schedules the keepalive
interval and stores the socket), the DTLS `connect` event (which sets
`opened`), a `sendUpdate` call, a keepalive timer firing, `close()`, and the
socket `close` / `error` events (whose handlers call `close()`). -/
inductive Event
  | connect
  | connectedEvent
  | send (now : Int) (updates : List ColorUpdate)
  | tick (now : Int)
  | close
  | peerClose
  | errorEvent
deriving DecidableEq, Repr

/-- State transition for each event (the keepalive handler never mutates
controller state, it only writes to the socket). -/
def stepState (uuid : String) (s : DtlsState) : Event → DtlsState
  | Event.connect => { s with hasSocket := true, keepaliveActive := true }
  | Event.connectedEvent => if s.hasSocket then { s with opened := true } else s
  | Event.send now updates => (sendUpdate uuid s now updates).2.1
  | Event.tick _ => s
  | Event.close => (closeStep s).1
  | Event.peerClose => (closeStep s).1
  | Event.errorEvent => (closeStep s).1

/-- Run a list of events from a state. -/
def runEvents (uuid : String) (s : DtlsState) : List Event → DtlsState
  | [] => s
  | e :: es => runEvents uuid (stepState uuid s e) es

/-- Whether an event is a `sendUpdate` call that returns `sent` from state `s`. -/
def eventSent (uuid : String) (s : DtlsState) : Event → Bool
  | Event.send now updates => decide ((sendUpdate uuid s now updates).1 = SendResult.sent)
  | _ => false

/-- Whether some event of the list is a `sendUpdate` call that returned
`sent`, evaluated along the run from `s`. -/
def hasSentSend (uuid : String) (s : DtlsState) : List Event → Bool
  | [] => false
  | e :: es => eventSent uuid s e || hasSentSend uuid (stepState uuid s e) es

/-- Controller states reachable from the constructor state. -/
inductive Reachable (uuid : String) : DtlsState → Prop
  | init : Reachable uuid initState
  | step (s : DtlsState) (e : Event) : Reachable uuid s → Reachable uuid (stepState uuid s e)

/-! ### Encoder lemmas -/

lemma length_asciiBytes (s : String) : (asciiBytes s).length = s.length := by
  rw [asciiBytes, List.length_map]
  rfl

lemma uuidField_of_length36 {uuid : String} (h : uuid.length = 36) :
    uuidField uuid = asciiBytes uuid := by
  have hlen : (asciiBytes uuid).length = 36 := by rw [length_asciiBytes, h]
  unfold uuidField
  rw [h, List.take_of_length_le (le_of_eq hlen)]
  simp

lemma length_uuidField {uuid : String} (h : uuid.length = 36) :
    (uuidField uuid).length = 36 := by
  rw [uuidField_of_length36 h, length_asciiBytes, h]

lemma length_recordBytes (u : ColorUpdate) : (recordBytes u).length = 7 := rfl

lemma length_fixedHeader : fixedHeader.length = 16 := rfl

lemma length_records_flatten (updates : List ColorUpdate) :
    ((updates.map recordBytes).flatten).length = 7 * updates.length := by
  induction updates with
  | nil => rfl
  | cons u us ih =>
    simp only [List.map_cons, List.flatten_cons, List.length_append, ih,
      length_recordBytes, List.length_cons]
    ring

lemma flatten_slice :
    ∀ (l : List (List Nat)), (∀ x ∈ l, x.length = 7) →
      ∀ (i : Nat) (hi : i < l.length), ((l.flatten).drop (7 * i)).take 7 = l[i]
  | [], _, i, hi => absurd hi (by simp)
  | x :: xs, h, 0, _ => by
    have hx : x.length = 7 := h x (by simp)
    simpa using List.take_left' hx
  | x :: xs, h, i + 1, hi => by
    have hx : x.length = 7 := h x (by simp)
    have harith : (7 : Nat) * (i + 1) = x.length + 7 * i := by rw [hx]; ring
    rw [List.flatten_cons, harith, List.drop_append, List.getElem_cons_succ]
    exact flatten_slice xs (fun y hy => h y (by simp [hy])) i (by simpa using hi)

lemma recordBytes_eq (u : ColorUpdate)
    (hr : u.r < 65536) (hg : u.g < 65536) (hb : u.b < 65536) :
    recordBytes u =
      [u.channelId % 256, u.r / 256, u.r % 256, u.g / 256, u.g % 256,
       u.b / 256, u.b % 256] := by
  have dr : u.r / 256 < 256 := Nat.div_lt_of_lt_mul (by omega)
  have dg : u.g / 256 < 256 := Nat.div_lt_of_lt_mul (by omega)
  have db : u.b / 256 < 256 := Nat.div_lt_of_lt_mul (by omega)
  simp [recordBytes, u16be, Nat.mod_eq_of_lt dr, Nat.mod_eq_of_lt dg, Nat.mod_eq_of_lt db]

lemma packet_split (uuid : String) (updates : List ColorUpdate) :
    sendUpdatePacketBytes uuid updates =
      fixedHeader ++ (uuidField uuid ++ (updates.map recordBytes).flatten) := by
  rw [sendUpdatePacketBytes, List.append_assoc]

/-- **C1.** For every 36-character configuration UUID and every list of N
updates (with 16-bit color components), the encoded update packet has exactly
`16 + 36 + 7·N` bytes; bytes 0..8 are the ASCII string `"HueStream"`; byte 9
is 2 and byte 10 is 0; bytes 16..51 are the ASCII UUID; and the record at
offset `52 + 7·i` is the i-th update's channel id truncated to 8 bits followed
by R, G, B as big-endian 16-bit pairs, in the order the updates appear. -/
theorem C1_packet_layout (uuid : String) (updates : List ColorUpdate)
    (h36 : uuid.length = 36)
    (hval : ∀ u ∈ updates, u.r < 65536 ∧ u.g < 65536 ∧ u.b < 65536) :
    (sendUpdatePacketBytes uuid updates).length = 16 + 36 + 7 * updates.length ∧
    (sendUpdatePacketBytes uuid updates).take 9 = asciiBytes "HueStream" ∧
    (sendUpdatePacketBytes uuid updates).getD 9 0 = 2 ∧
    (sendUpdatePacketBytes uuid updates).getD 10 0 = 0 ∧
    ((sendUpdatePacketBytes uuid updates).drop 16).take 36 = asciiBytes uuid ∧
    ∀ (i : Nat) (hi : i < updates.length),
      ((sendUpdatePacketBytes uuid updates).drop (52 + 7 * i)).take 7 =
        [updates[i].channelId % 256,
         updates[i].r / 256, updates[i].r % 256,
         updates[i].g / 256, updates[i].g % 256,
         updates[i].b / 256, updates[i].b % 256] := by
  have hsplit := packet_split uuid updates
  refine ⟨?_, ?_, ?_, ?_, ?_, ?_⟩
  · rw [sendUpdatePacketBytes, List.length_append, List.length_append,
      length_fixedHeader, length_uuidField h36, length_records_flatten]
  · rw [hsplit, List.take_append_of_le_length (by rw [length_fixedHeader]; omega)]
    rfl
  · rw [hsplit]
    simp only [List.getD, List.getElem?_append_left
      (show (9 : Nat) < fixedHeader.length by rw [length_fixedHeader]; omega)]
    rfl
  · rw [hsplit]
    simp only [List.getD, List.getElem?_append_left
      (show (10 : Nat) < fixedHeader.length by rw [length_fixedHeader]; omega)]
    rfl
  · rw [hsplit, List.drop_left' length_fixedHeader,
      List.take_left' (length_uuidField h36), uuidField_of_length36 h36]
  · intro i hi
    have hlen : (fixedHeader ++ uuidField uuid).length = 52 := by
      rw [List.length_append, length_fixedHeader, length_uuidField h36]
    have harith : 52 + 7 * i = (fixedHeader ++ uuidField uuid).length + 7 * i := by
      rw [hlen]
    rw [show sendUpdatePacketBytes uuid updates =
        (fixedHeader ++ uuidField uuid) ++ (updates.map recordBytes).flatten from rfl,
      harith, List.drop_append]
    have hmem : ∀ x ∈ updates.map recordBytes, x.length = 7 := by
      intro x hx
      obtain ⟨u, _, rfl⟩ := List.mem_map.mp hx
      exact length_recordBytes u
    have hi' : i < (updates.map recordBytes).length := by simpa using hi
    rw [flatten_slice (updates.map recordBytes) hmem i hi', List.getElem_map]
    have hu := hval updates[i] (List.getElem_mem hi)
    exact recordBytes_eq updates[i] hu.1 hu.2.1 hu.2.2

/-- A concrete 36-character UUID used by the witnesses. -/
def uuid0 : String := "01234567-89ab-cdef-0123-456789abcdef"

/-- Concrete updates used by the C1 witness. -/
def updates0 : List ColorUpdate :=
  [{ channelId := 513, r := 0xFFFF, g := 0, b := 0x1234 },
   { channelId := 7, r := 1, g := 2, b := 3 }]

/-- Witness for C1 at a concrete UUID and update list. -/
theorem C1_packet_layout_witness :
    (sendUpdatePacketBytes uuid0 updates0).length = 16 + 36 + 7 * updates0.length ∧
    (sendUpdatePacketBytes uuid0 updates0).take 9 = asciiBytes "HueStream" :=
  ⟨(C1_packet_layout uuid0 updates0 (by decide) (by decide)).1,
   (C1_packet_layout uuid0 updates0 (by decide) (by decide)).2.1⟩

/-! ### Send-path lemmas -/

lemma sendUpdate_open (uuid : String) (s : DtlsState) (now : Int) (updates : List ColorUpdate)
    (hs : s.hasSocket = true) (ho : s.opened = true) (hskip : s.skip = false) :
    sendUpdate uuid s now updates =
      if s.lastPacketSentAtMs ≠ 0 ∧ now - s.lastPacketSentAtMs < minIntervalMs then
        (SendResult.throttled,
         { s with lastUpdate := some updates, lastUpdateTimestamp := some now }, none)
      else
        (SendResult.sent,
         { s with lastUpdate := some updates, lastUpdateTimestamp := some now,
                  lastPacketSentAtMs := now },
         some (sendUpdatePacketBytes uuid updates)) := by
  unfold sendUpdate sendUpdatePacketStep
  rw [if_neg (by simp [hs, ho]), if_neg (by simp [hskip])]
  dsimp only
  split
  · rfl
  · simp [hs, ho]

lemma sendUpdate_cases (uuid : String) (s : DtlsState) (now : Int) (updates : List ColorUpdate) :
    ((sendUpdate uuid s now updates).1 = SendResult.sent ∧
      ((sendUpdate uuid s now updates).2.1).lastPacketSentAtMs = now) ∨
    ((sendUpdate uuid s now updates).1 ≠ SendResult.sent ∧
      ((sendUpdate uuid s now updates).2.1).lastPacketSentAtMs = s.lastPacketSentAtMs) := by
  unfold sendUpdate sendUpdatePacketStep
  dsimp only
  split
  · right; simp
  · split
    · right; simp
    · split
      · right; simp
      · split
        · left; simp
        · right; simp

lemma sendUpdate_sent_gate (uuid : String) (s : DtlsState) (now : Int)
    (updates : List ColorUpdate)
    (h : (sendUpdate uuid s now updates).1 = SendResult.sent) :
    s.lastPacketSentAtMs = 0 ∨ minIntervalMs ≤ now - s.lastPacketSentAtMs := by
  unfold sendUpdate sendUpdatePacketStep at h
  dsimp only at h
  split at h
  · simp at h
  · split at h
    · simp at h
    · rename_i hcond
      split at h
      · simp at h
      · rename_i hgate
        rcases not_and_or.mp hgate with h0 | hge
        · left
          simpa using h0
        · right
          exact Int.not_lt.mp hge

lemma sendUpdate_sent_bytes (uuid : String) (s : DtlsState) (now : Int)
    (updates : List ColorUpdate)
    (h : (sendUpdate uuid s now updates).1 = SendResult.sent) :
    (sendUpdate uuid s now updates).2.2 = some (sendUpdatePacketBytes uuid updates) := by
  unfold sendUpdate sendUpdatePacketStep at *
  dsimp only at *
  split at h
  · simp at h
  · rename_i hguard
    have hs : s.hasSocket = true := by
      cases hh : s.hasSocket
      · exact absurd (Or.inl hh) hguard
      · rfl
    have ho : s.opened = true := by
      cases hh : s.opened
      · exact absurd (Or.inr hh) hguard
      · rfl
    split at h
    · simp at h
    · rename_i hskip2
      split at h
      · simp at h
      · rename_i hgate2
        rw [if_neg hguard, if_neg hskip2, if_neg hgate2]
        simp [hs, ho]

lemma closeStep_state (s : DtlsState) :
    (closeStep s).1 =
      (if s.opened = false then s else { s with opened := false }) := by
  unfold closeStep
  split <;> rfl

lemma stepState_preserves_last {uuid : String} (s : DtlsState) (e : Event)
    (h : eventSent uuid s e = false) :
    (stepState uuid s e).lastPacketSentAtMs = s.lastPacketSentAtMs := by
  cases e with
  | connect => rfl
  | connectedEvent =>
    cases hh : s.hasSocket <;> simp [stepState, hh]
  | send now updates =>
    have h' : (sendUpdate uuid s now updates).1 ≠ SendResult.sent := by
      simpa [eventSent] using h
    rcases sendUpdate_cases uuid s now updates with ⟨hsent, _⟩ | ⟨_, hpres⟩
    · exact absurd hsent h'
    · exact hpres
  | tick _ => rfl
  | close => rw [stepState, closeStep_state]; split <;> rfl
  | peerClose => rw [stepState, closeStep_state]; split <;> rfl
  | errorEvent => rw [stepState, closeStep_state]; split <;> rfl

lemma runEvents_preserves_last {uuid : String} :
    ∀ (evs : List Event) (s : DtlsState), hasSentSend uuid s evs = false →
      (runEvents uuid s evs).lastPacketSentAtMs = s.lastPacketSentAtMs
  | [], _, _ => rfl
  | e :: es, s, h => by
    rw [hasSentSend, Bool.or_eq_false_iff] at h
    rw [runEvents, runEvents_preserves_last es _ h.2, stepState_preserves_last s e h.1]

lemma sendUpdate_skip_false (uuid : String) (s : DtlsState) (now : Int)
    (updates : List ColorUpdate) (h : s.skip = false) :
    ((sendUpdate uuid s now updates).2.1).skip = false := by
  unfold sendUpdate sendUpdatePacketStep
  dsimp only
  split
  · exact h
  · split
    · rfl
    · split
      · exact h
      · split
        · exact h
        · exact h

/-- The dead rate-halving toggle: `skip` starts `false` and the only
assignment in the source sets it to `false`, so every reachable state has
`skip = false`. -/
lemma reachable_skip_false {uuid : String} {s : DtlsState} (h : Reachable uuid s) :
    s.skip = false := by
  induction h with
  | init => rfl
  | step s e _ ih =>
    cases e with
    | connect => exact ih
    | connectedEvent =>
      cases hh : s.hasSocket <;> simp [stepState, hh, ih]
    | send now updates => exact sendUpdate_skip_false uuid s now updates ih
    | tick _ => exact ih
    | close => rw [stepState, closeStep_state]; split <;> simp [ih]
    | peerClose => rw [stepState, closeStep_state]; split <;> simp [ih]
    | errorEvent => rw [stepState, closeStep_state]; split <;> simp [ih]

/-- **C2.** With the default `minIntervalMs = 40`, a `sendUpdate` call on an
Open controller (at a realistic clock value, at least 40 ms past the epoch)
returns `throttled` exactly when `now − lastPacketSentAtMs < 40`; and for
every pair of consecutive `sent` calls — the first at `t1`, then any events
none of which is a `sendUpdate` returning `sent`, then a call at `t2` that
returns `sent` — we have `t2 − t1 ≥ 40`. -/
theorem C2_throttle (uuid : String) (s : DtlsState) (now : Int) (updates : List ColorUpdate)
    (hr : Reachable uuid s) (hs : s.hasSocket = true) (ho : s.opened = true)
    (hnow : (40 : Int) ≤ now) :
    ((sendUpdate uuid s now updates).1 = SendResult.throttled ↔
      now - s.lastPacketSentAtMs < 40) ∧
    (∀ (s0 : DtlsState) (t1 : Int) (u1 : List ColorUpdate) (evs : List Event)
        (t2 : Int) (u2 : List ColorUpdate),
      (40 : Int) ≤ t1 →
      (sendUpdate uuid s0 t1 u1).1 = SendResult.sent →
      hasSentSend uuid ((sendUpdate uuid s0 t1 u1).2.1) evs = false →
      (sendUpdate uuid (runEvents uuid ((sendUpdate uuid s0 t1 u1).2.1) evs) t2 u2).1 =
        SendResult.sent →
      (40 : Int) ≤ t2 - t1) := by
  have hskip : s.skip = false := reachable_skip_false hr
  constructor
  · rw [sendUpdate_open uuid s now updates hs ho hskip]
    split
    · rename_i hc
      simpa [minIntervalMs] using hc.2
    · rename_i hc
      constructor
      · intro hth
        exact absurd hth (by simp)
      · intro hlt
        refine absurd ⟨?_, ?_⟩ hc
        · omega
        · simpa [minIntervalMs] using hlt
  · intro s0 t1 u1 evs t2 u2 ht1 hsent1 hnosent hsent2
    have hlast1 : ((sendUpdate uuid s0 t1 u1).2.1).lastPacketSentAtMs = t1 := by
      rcases sendUpdate_cases uuid s0 t1 u1 with ⟨_, hset⟩ | ⟨hne, _⟩
      · exact hset
      · exact absurd hsent1 hne
    have hlast2 :
        (runEvents uuid ((sendUpdate uuid s0 t1 u1).2.1) evs).lastPacketSentAtMs = t1 := by
      rw [runEvents_preserves_last evs _ hnosent, hlast1]
    rcases sendUpdate_sent_gate uuid _ t2 u2 hsent2 with h0 | hge
    · rw [hlast2] at h0
      omega
    · rw [hlast2] at hge
      simpa [minIntervalMs] using hge

/-- Witness for C2: a freshly opened controller at time 1000 is not throttled,
and two consecutive sent calls at times 1000 and 1050 are 40 ms apart. -/
theorem C2_throttle_witness :
    ((sendUpdate uuid0 (stepState uuid0 (stepState uuid0 initState Event.connect)
        Event.connectedEvent) 1000 []).1 = SendResult.throttled ↔
      (1000 : Int) - (stepState uuid0 (stepState uuid0 initState Event.connect)
        Event.connectedEvent).lastPacketSentAtMs < 40) ∧
    (∀ (s0 : DtlsState) (t1 : Int) (u1 : List ColorUpdate) (evs : List Event)
        (t2 : Int) (u2 : List ColorUpdate),
      (40 : Int) ≤ t1 →
      (sendUpdate uuid0 s0 t1 u1).1 = SendResult.sent →
      hasSentSend uuid0 ((sendUpdate uuid0 s0 t1 u1).2.1) evs = false →
      (sendUpdate uuid0 (runEvents uuid0 ((sendUpdate uuid0 s0 t1 u1).2.1) evs) t2 u2).1 =
        SendResult.sent →
      (40 : Int) ≤ t2 - t1) :=
  C2_throttle uuid0
    (stepState uuid0 (stepState uuid0 initState Event.connect) Event.connectedEvent)
    1000 []
    (Reachable.step _ Event.connectedEvent (Reachable.step _ Event.connect Reachable.init))
    (by decide) (by decide) (by decide)

/-- **C7.** Every `sendUpdate` call on a reachable Open controller updates the
last-known-update cache (list and timestamp) to the given updates — including
calls whose result is `throttled`; on a throttled call, `lastPacketSentAtMs`
and every other field besides the cache are unchanged. -/
theorem C7_cache_update (uuid : String) (s : DtlsState) (now : Int)
    (updates : List ColorUpdate) (hr : Reachable uuid s)
    (ho : s.opened = true) (hs : s.hasSocket = true) :
    ((sendUpdate uuid s now updates).2.1).lastUpdate = some updates ∧
    ((sendUpdate uuid s now updates).2.1).lastUpdateTimestamp = some now ∧
    ((sendUpdate uuid s now updates).1 = SendResult.throttled →
      ((sendUpdate uuid s now updates).2.1).lastPacketSentAtMs = s.lastPacketSentAtMs ∧
      ((sendUpdate uuid s now updates).2.1).opened = s.opened ∧
      ((sendUpdate uuid s now updates).2.1).hasSocket = s.hasSocket ∧
      ((sendUpdate uuid s now updates).2.1).skip = s.skip ∧
      ((sendUpdate uuid s now updates).2.1).keepaliveActive = s.keepaliveActive) := by
  have hskip : s.skip = false := reachable_skip_false hr
  rw [sendUpdate_open uuid s now updates hs ho hskip]
  split
  · exact ⟨rfl, rfl, fun _ => ⟨rfl, rfl, rfl, rfl, rfl⟩⟩
  · refine ⟨rfl, rfl, fun hth => absurd hth (by simp)⟩

/-- Witness for C7 on a concrete reachable Open state. -/
theorem C7_cache_update_witness :
    ((sendUpdate uuid0 (stepState uuid0 (stepState uuid0 initState Event.connect)
        Event.connectedEvent) 1000 updates0).2.1).lastUpdate = some updates0 ∧
    ((sendUpdate uuid0 (stepState uuid0 (stepState uuid0 initState Event.connect)
        Event.connectedEvent) 1000 updates0).2.1).lastUpdateTimestamp = some 1000 :=
  ⟨(C7_cache_update uuid0 _ 1000 updates0
      (Reachable.step _ Event.connectedEvent (Reachable.step _ Event.connect Reachable.init))
      (by decide) (by decide)).1,
   (C7_cache_update uuid0 _ 1000 updates0
      (Reachable.step _ Event.connectedEvent (Reachable.step _ Event.connect Reachable.init))
      (by decide) (by decide)).2.1⟩

/-- **C10.** Because `lastPacketSentAtMs` is initialised to 0 and the throttle
gate only applies when it is non-zero, a `sendUpdate` on an Open controller
that has never sent a packet is never rejected as `throttled`, regardless of
how soon it is called — it returns `sent`. -/
theorem C10_first_send_not_throttled (uuid : String) (s : DtlsState) (now : Int)
    (updates : List ColorUpdate) (h0 : s.lastPacketSentAtMs = 0)
    (ho : s.opened = true) (hs : s.hasSocket = true) (hskip : s.skip = false) :
    (sendUpdate uuid s now updates).1 ≠ SendResult.throttled ∧
    (sendUpdate uuid s now updates).1 = SendResult.sent := by
  rw [sendUpdate_open uuid s now updates hs ho hskip, if_neg (by simp [h0])]
  exact ⟨by simp, rfl⟩

/-- Witness for C10: the first send on a freshly opened controller, called at
time 1 (sooner than any throttle window), is sent. -/
theorem C10_first_send_not_throttled_witness :
    (sendUpdate uuid0 (stepState uuid0 (stepState uuid0 initState Event.connect)
        Event.connectedEvent) 1 updates0).1 ≠ SendResult.throttled ∧
    (sendUpdate uuid0 (stepState uuid0 (stepState uuid0 initState Event.connect)
        Event.connectedEvent) 1 updates0).1 = SendResult.sent :=
  C10_first_send_not_throttled uuid0 _ 1 updates0 (by decide) (by decide) (by decide)
    (by decide)

/-! ### Keepalive and close -/

/-- **C3.** On a keepalive tick of an Open controller holding a last-known
update: if no `sendUpdate` attempt has been serviced within the last 2000 ms,
the cached update is re-encoded and retransmitted — the written bytes are
exactly `sendUpdatePacketBytes` of the cached update, the same bytes any
successful `sendUpdate` of that update writes — and this holds for every
value of `lastPacketSentAtMs`, bypassing the min-interval gate; if an attempt
was serviced within the last 2000 ms, the tick transmits nothing. -/
theorem C3_keepalive (uuid : String) (s : DtlsState) (now ts : Int)
    (u : List ColorUpdate) (hact : s.keepaliveActive = true)
    (ho : s.opened = true) (hs : s.hasSocket = true)
    (hu : s.lastUpdate = some u) (hts : s.lastUpdateTimestamp = some ts) :
    (2000 < now - ts →
      keepaliveTick uuid s now = some (sendUpdatePacketBytes uuid u)) ∧
    (now - ts ≤ 2000 → keepaliveTick uuid s now = none) ∧
    (∀ (s2 : DtlsState) (n2 : Int),
      (sendUpdate uuid s2 n2 u).1 = SendResult.sent →
      (sendUpdate uuid s2 n2 u).2.2 = some (sendUpdatePacketBytes uuid u)) := by
  refine ⟨?_, ?_, fun s2 n2 h => sendUpdate_sent_bytes uuid s2 n2 u h⟩
  · intro hstale
    rw [keepaliveTick, if_pos hact, updateKeepalive,
      if_neg (by simp [recentlyServiced, hts]; omega), hu]
    simp [sendUpdatePacketStep, ho, hs]
  · intro hfresh
    rw [keepaliveTick, if_pos hact, updateKeepalive,
      if_pos (by simp [recentlyServiced, hts, hfresh])]

/-- Witness for C3: after one send at time 1000, a tick at 3001 retransmits
the cached bytes and a tick at 3000 transmits nothing. -/
theorem C3_keepalive_witness :
    ((2000 : Int) < 3001 - 1000 →
      keepaliveTick uuid0
        ((sendUpdate uuid0 (stepState uuid0 (stepState uuid0 initState Event.connect)
            Event.connectedEvent) 1000 updates0).2.1) 3001 =
        some (sendUpdatePacketBytes uuid0 updates0)) ∧
    ((3001 : Int) - 1000 ≤ 2000 →
      keepaliveTick uuid0
        ((sendUpdate uuid0 (stepState uuid0 (stepState uuid0 initState Event.connect)
            Event.connectedEvent) 1000 updates0).2.1) 3001 = none) ∧
    (∀ (s2 : DtlsState) (n2 : Int),
      (sendUpdate uuid0 s2 n2 updates0).1 = SendResult.sent →
      (sendUpdate uuid0 s2 n2 updates0).2.2 =
        some (sendUpdatePacketBytes uuid0 updates0)) :=
  C3_keepalive uuid0
    ((sendUpdate uuid0 (stepState uuid0 (stepState uuid0 initState Event.connect)
        Event.connectedEvent) 1000 updates0).2.1) 3001 1000 updates0
    (by decide) (by decide) (by decide) (by decide) (by decide)

/-- **C9.** `close()` is idempotent: for every controller state, a second
`close()` leaves the state unchanged and performs no socket operation and no
`close` emission, so the observable effect of `close(); close()` equals that
of a single `close()`. -/
theorem C9_close_idempotent (s : DtlsState) :
    closeStep (closeStep s).1 = ((closeStep s).1, []) ∧
    (closeStep s).2 ++ (closeStep (closeStep s).1).2 = (closeStep s).2 := by
  have h2 : closeStep (closeStep s).1 = ((closeStep s).1, []) := by
    rw [closeStep_state]
    split
    · rename_i hcl
      rw [closeStep, if_pos hcl]
    · rw [closeStep, if_pos rfl]
  exact ⟨h2, by rw [h2]; simp⟩

/-- **C8 (counterexample).** The claim says keepalive ticks stop once the
controller leaves Open. But `close()` never clears the interval scheduled by
`connect()`: after connect, connected, close, the controller is no longer
opened yet `keepaliveActive` (the scheduled interval) is still set, so ticks
keep firing. -/
theorem C8_counterexample :
    (runEvents uuid0 initState
        [Event.connect, Event.connectedEvent, Event.close]).opened = false ∧
    (runEvents uuid0 initState
        [Event.connect, Event.connectedEvent, Event.close]).keepaliveActive = true := by
  decide

/-- **C8 (amended).** Once the controller leaves `Open`, the keepalive
interval keeps firing (close does not clear it), but a tick performs no
retransmission: with `opened = false`, `sendUpdatePacket` writes nothing, so
the tick's output is `none`; and `close()` leaves `keepaliveActive` as it
was. -/
theorem C8_no_retransmit_after_close (uuid : String) (s : DtlsState) (now : Int)
    (h : s.opened = false) :
    keepaliveTick uuid s now = none ∧
    (closeStep s).1.keepaliveActive = s.keepaliveActive := by
  constructor
  · rw [keepaliveTick]
    split
    · rw [updateKeepalive]
      split
      · rfl
      · split
        · simp [sendUpdatePacketStep, h]
        · rfl
    · rfl
  · rw [closeStep_state]
    split <;> rfl

/-- Witness for C8 (amended): a tick after close writes nothing. -/
theorem C8_no_retransmit_after_close_witness :
    keepaliveTick uuid0
      (runEvents uuid0 initState [Event.connect, Event.connectedEvent, Event.close])
      5000 = none ∧
    (closeStep (runEvents uuid0 initState
      [Event.connect, Event.connectedEvent, Event.close])).1.keepaliveActive =
      (runEvents uuid0 initState
        [Event.connect, Event.connectedEvent, Event.close]).keepaliveActive :=
  C8_no_retransmit_after_close uuid0
    (runEvents uuid0 initState [Event.connect, Event.connectedEvent, Event.close])
    5000 (by decide)

/-- A 36-character string that is not UUID-shaped. -/
def badUuid0 : String := "xxxxxxxxxxxxxxxxxxxxxxxxxxxxxxxxxxxx"

/-- **C4 (counterexample).** The claim says construction accepts exactly the
36-character strings of UUID shape 8-4-4-4-12. But `assertUuid36` checks only
the length: a 36-character string of `x`s is accepted although it is not
UUID-shaped. -/
theorem C4_counterexample :
    assertUuid36 badUuid0 = true ∧ isUuidShape36 badUuid0 = false := by
  decide

/-- **C4 (amended).** The constructor accepts an id exactly when it has
length 36; in particular every UUID-shaped string is accepted, but the UUID
shape itself is not enforced. -/
theorem C4_accepts_iff_length36 (id : String) :
    (assertUuid36 id = true ↔ id.length = 36) ∧
    (isUuidShape36 id = true → assertUuid36 id = true) := by
  constructor
  · simp [assertUuid36]
  · intro h
    rw [isUuidShape36, Bool.and_eq_true] at h
    exact h.1

/-- Witness for C4 (amended): the concrete UUID-shaped id is accepted. -/
theorem C4_accepts_iff_length36_witness : assertUuid36 uuid0 = true :=
  (C4_accepts_iff_length36 uuid0).2 (by decide)

/-! ### Hub runner (`hue-runner.ts`) and process startup (`cli.ts`) -/

/-- `ChannelConfiguration` from `config.ts`. -/
structure ChannelConfiguration where
  dmxStart : Nat
  channelId : Nat
  channelMode : String
deriving DecidableEq, Repr

/-- `HubConfig` from `config.ts` (the fields the runner and CLI consume). -/
structure HubConfig where
  id : String
  name : Option String
  host : String
  username : String
  clientKey : String
  entertainmentConfigurationId : Option String
  artNetUniverse : Nat
  channels : List ChannelConfiguration
deriving DecidableEq, Repr

/-- One remote entertainment configuration as returned by
`listEntertainmentConfigurations` in `hue-v2.ts`. -/
structure EntertainmentConfig where
  id : String
  name : Option String
  channelIds : List Nat
deriving DecidableEq, Repr

/-- External calls issued by `HueEntertainmentRunner.start`, in program
order: `connectHueApi`, `listEntertainmentConfigurations`,
`getHueApplicationId`, the HTTPS `startEntertainmentConfiguration` PUT
(the state-changing control-plane call), and the DTLS `connect`. -/
inductive RunnerEffect
  | connectApi
  | listConfigs
  | getAppId
  | startRequest (id : String)
  | dtlsConnect
deriving DecidableEq, Repr

/-- Errors thrown by `HueEntertainmentRunner.start`. -/
inductive RunnerError
  | noEntConfigId (hubId : String)
  | configNotFound (hubId : String) (cfgId : String)
  | channelMismatch (hubId : String) (missing : List Nat) (extra : List Nat)
deriving DecidableEq, Repr

/-- `missing` in `start`: remote channel ids not present among the configured
mapping channel ids (`cfg.channelIds.filter(id => !configuredChannelIds.has(id))`). -/
def missingChannels (cfg : EntertainmentConfig) (channels : List ChannelConfiguration) :
    List Nat :=
  cfg.channelIds.filter
    (fun i => !((channels.map ChannelConfiguration.channelId).contains i))

/-- `extra` in `start`: configured mapping channel ids not reported by the
remote configuration. -/
def extraChannels (cfg : EntertainmentConfig) (channels : List ChannelConfiguration) :
    List Nat :=
  (channels.map ChannelConfiguration.channelId).filter
    (fun i => !(cfg.channelIds.contains i))

/-- `HueEntertainmentRunner.start` up to the DTLS handshake: the ordered list
of external calls issued before returning, and the error aborting the start,
if any. Guard order as in the source: missing/empty `entertainmentConfigurationId`,
remote configuration lookup, channel-set mismatch, then app-id resolution, the
HTTPS start request, and the DTLS connect. -/
def runnerStart (hub : HubConfig) (configs : List EntertainmentConfig) :
    List RunnerEffect × Option RunnerError :=
  match hub.entertainmentConfigurationId with
  | none => ([], some (RunnerError.noEntConfigId hub.id))
  | some cid =>
    if cid = "" then ([], some (RunnerError.noEntConfigId hub.id))
    else
      match configs.find? (fun c => c.id == cid) with
      | none =>
        ([RunnerEffect.connectApi, RunnerEffect.listConfigs],
         some (RunnerError.configNotFound hub.id cid))
      | some cfg =>
        if (missingChannels cfg hub.channels).length ≠ 0 ∨
            (extraChannels cfg hub.channels).length ≠ 0 then
          ([RunnerEffect.connectApi, RunnerEffect.listConfigs],
           some (RunnerError.channelMismatch hub.id (missingChannels cfg hub.channels)
             (extraChannels cfg hub.channels)))
        else
          ([RunnerEffect.connectApi, RunnerEffect.listConfigs, RunnerEffect.getAppId,
            RunnerEffect.startRequest cid, RunnerEffect.dtlsConnect], none)

lemma mem_missingChannels (cfg : EntertainmentConfig)
    (channels : List ChannelConfiguration) (x : Nat) :
    x ∈ missingChannels cfg channels ↔
      x ∈ cfg.channelIds ∧ x ∉ channels.map ChannelConfiguration.channelId := by
  simp [missingChannels, List.mem_filter]

lemma mem_extraChannels (cfg : EntertainmentConfig)
    (channels : List ChannelConfiguration) (x : Nat) :
    x ∈ extraChannels cfg channels ↔
      x ∈ channels.map ChannelConfiguration.channelId ∧ x ∉ cfg.channelIds := by
  simp [extraChannels, List.mem_filter]

/-- **C5.** For every hub whose configured set of mapping channel ids differs
(as a set) from the channel ids reported by its selected remote entertainment
configuration, `start` fails with the channel-mismatch error carrying exactly
the missing ids and exactly the extra ids, after issuing only the two
read-only calls (`connectHueApi`, `listEntertainmentConfigurations`): the
HTTPS `start` request is never issued. -/
theorem C5_mismatch_aborts_before_start (hub : HubConfig)
    (configs : List EntertainmentConfig) (cid : String) (cfg : EntertainmentConfig)
    (hcid : hub.entertainmentConfigurationId = some cid) (hne : cid ≠ "")
    (hfind : configs.find? (fun c => c.id == cid) = some cfg)
    (hdiff : ¬ ((∀ x ∈ cfg.channelIds, x ∈ hub.channels.map ChannelConfiguration.channelId) ∧
                (∀ x ∈ hub.channels.map ChannelConfiguration.channelId, x ∈ cfg.channelIds))) :
    runnerStart hub configs =
      ([RunnerEffect.connectApi, RunnerEffect.listConfigs],
       some (RunnerError.channelMismatch hub.id (missingChannels cfg hub.channels)
         (extraChannels cfg hub.channels))) ∧
    (∀ x, x ∈ missingChannels cfg hub.channels ↔
      x ∈ cfg.channelIds ∧ x ∉ hub.channels.map ChannelConfiguration.channelId) ∧
    (∀ x, x ∈ extraChannels cfg hub.channels ↔
      x ∈ hub.channels.map ChannelConfiguration.channelId ∧ x ∉ cfg.channelIds) ∧
    (∀ e ∈ (runnerStart hub configs).1, ∀ i, e ≠ RunnerEffect.startRequest i) := by
  have hnonnil : missingChannels cfg hub.channels ≠ [] ∨
      extraChannels cfg hub.channels ≠ [] := by
    by_contra hcon
    push_neg at hcon
    apply hdiff
    constructor
    · intro x hx
      by_contra hnx
      have hm : x ∈ missingChannels cfg hub.channels :=
        (mem_missingChannels cfg hub.channels x).mpr ⟨hx, hnx⟩
      rw [hcon.1] at hm
      exact absurd hm (List.not_mem_nil x)
    · intro x hx
      by_contra hnx
      have hm : x ∈ extraChannels cfg hub.channels :=
        (mem_extraChannels cfg hub.channels x).mpr ⟨hx, hnx⟩
      rw [hcon.2] at hm
      exact absurd hm (List.not_mem_nil x)
  have hlen : (missingChannels cfg hub.channels).length ≠ 0 ∨
      (extraChannels cfg hub.channels).length ≠ 0 := by
    rcases hnonnil with h | h
    · exact Or.inl (by simpa using h)
    · exact Or.inr (by simpa using h)
  have hmain : runnerStart hub configs =
      ([RunnerEffect.connectApi, RunnerEffect.listConfigs],
       some (RunnerError.channelMismatch hub.id (missingChannels cfg hub.channels)
         (extraChannels cfg hub.channels))) := by
    rw [runnerStart, hcid]
    dsimp only
    rw [if_neg hne, hfind]
    dsimp only
    rw [if_pos hlen]
  refine ⟨hmain, mem_missingChannels cfg hub.channels,
    mem_extraChannels cfg hub.channels, ?_⟩
  rw [hmain]
  intro e he i
  simp only [List.mem_cons, List.not_mem_nil, or_false] at he
  rcases he with rfl | rfl <;> simp

/-- Spec scenario 6: configured channels `{0,1,2}`, remote `{0,1,3}`. -/
def hub5 : HubConfig :=
  { id := "hub-5", name := none, host := "192.168.1.10", username := "user-5",
    clientKey := "00aabb", entertainmentConfigurationId := some uuid0,
    artNetUniverse := 11,
    channels := [{ dmxStart := 1, channelId := 0, channelMode := "8bit" },
                 { dmxStart := 4, channelId := 1, channelMode := "8bit" },
                 { dmxStart := 7, channelId := 2, channelMode := "8bit" }] }

/-- The remote entertainment configuration for the C5 witness. -/
def cfg5 : EntertainmentConfig := { id := uuid0, name := none, channelIds := [0, 1, 3] }

/-- Witness for C5 at the spec's channel-set-mismatch scenario: missing `[3]`,
extra `[2]`, and no start request among the issued effects. -/
theorem C5_mismatch_aborts_before_start_witness :
    runnerStart hub5 [cfg5] =
      ([RunnerEffect.connectApi, RunnerEffect.listConfigs],
       some (RunnerError.channelMismatch hub5.id (missingChannels cfg5 hub5.channels)
         (extraChannels cfg5 hub5.channels))) ∧
    (∀ e ∈ (runnerStart hub5 [cfg5]).1, ∀ i, e ≠ RunnerEffect.startRequest i) :=
  ⟨(C5_mismatch_aborts_before_start hub5 [cfg5] uuid0 cfg5 (by decide) (by decide)
      (by decide) (by decide)).1,
   (C5_mismatch_aborts_before_start hub5 [cfg5] uuid0 cfg5 (by decide) (by decide)
      (by decide) (by decide)).2.2.2⟩

/-- Valid channel modes checked by `startProcess` in `cli.ts`. -/
def validChannelMode (m : String) : Bool :=
  m == "8bit" || m == "8bit-dimmable" || m == "16bit"

/-- The per-hub validation loop of `startProcess`: host, username and
clientKey present (non-empty, JS truthiness), an entertainment configuration
id set, a non-empty channels list, and every channel mode valid. Any failure
calls `process.exit(1)`. -/
def hubStartupValid (hub : HubConfig) : Bool :=
  !(hub.host == "") && !(hub.username == "") && !(hub.clientKey == "") &&
  (match hub.entertainmentConfigurationId with
   | some s => !(s == "")
   | none => false) &&
  !hub.channels.isEmpty &&
  hub.channels.all (fun ch => validChannelMode ch.channelMode)

/-- Outcome of `startProcess` for the selected hubs. -/
inductive ProcessOutcome
  | exited (code : Nat)
  | startFailed
  | running (hubIds : List String)
deriving DecidableEq, Repr

/-- Whether the process reached the running (streaming) phase. -/
def isRunning : ProcessOutcome → Bool
  | ProcessOutcome.running _ => true
  | _ => false

/-- `startProcess` from `cli.ts`, for a non-empty hub selection: if any
selected hub fails validation, the whole process exits with code 1 before any
runner is constructed; otherwise all runner starts are awaited together
(`Promise.all`), and one failing start rejects the combined startup, so the
DMX frame subscription is never wired and no hub streams; only when every
start succeeds do all hubs run. `remote` gives each hub's remote
entertainment-configuration list. -/
def startProcess (hubs : List HubConfig) (remote : String → List EntertainmentConfig) :
    ProcessOutcome :=
  if hubs.any (fun h => !(hubStartupValid h)) then ProcessOutcome.exited 1
  else if hubs.any (fun h => ((runnerStart h (remote h.id)).2).isSome) then
    ProcessOutcome.startFailed
  else ProcessOutcome.running (hubs.map (fun h => h.id))

/-- A hub with no client key (missing credential). -/
def hubBad : HubConfig :=
  { id := "hub-bad", name := none, host := "192.168.1.10", username := "user-a",
    clientKey := "", entertainmentConfigurationId := some uuid0,
    artNetUniverse := 11,
    channels := [{ dmxStart := 1, channelId := 0, channelMode := "8bit" }] }

/-- A fully configured hub whose mapping matches its remote configuration. -/
def hubGood : HubConfig :=
  { id := "hub-good", name := none, host := "192.168.1.11", username := "user-b",
    clientKey := "00aabb", entertainmentConfigurationId := some uuid0,
    artNetUniverse := 12,
    channels := [{ dmxStart := 1, channelId := 0, channelMode := "8bit" }] }

/-- Remote listing matching `hubGood` (and `hubBad`) for the C6 theorems. -/
def remote0 : String → List EntertainmentConfig :=
  fun _ => [{ id := uuid0, name := none, channelIds := [0] }]

/-- **C6 (counterexample).** The claim says a failing hub aborts only its own
runner while other hubs proceed. But the validation loop in `startProcess`
calls `process.exit(1)`: with a credential-less hub alongside a fully
working hub, the whole process exits and no hub streams — although the good
hub alone would have run. -/
theorem C6_counterexample :
    startProcess [hubBad, hubGood] remote0 = ProcessOutcome.exited 1 ∧
    isRunning (startProcess [hubBad, hubGood] remote0) = false ∧
    startProcess [hubGood] remote0 = ProcessOutcome.running ["hub-good"] := by
  decide

/-- **C6 (amended).** A configuration or setup failure is not isolated to the
affected hub: if any selected hub is missing required startup inputs, the
whole process exits with code 1 before any runner is started; and if any
runner's start fails, the combined startup fails, so no hub reaches the
streaming phase. -/
theorem C6_failure_aborts_process (hubs : List HubConfig)
    (remote : String → List EntertainmentConfig) :
    ((hubs.any (fun h => !(hubStartupValid h))) = true →
      startProcess hubs remote = ProcessOutcome.exited 1) ∧
    ((hubs.any (fun h => ((runnerStart h (remote h.id)).2).isSome)) = true →
      isRunning (startProcess hubs remote) = false) := by
  constructor
  · intro h
    rw [startProcess, if_pos h]
  · intro h
    rw [startProcess]
    split
    · rfl
    · rfl

/-- Witness for C6 (amended): the invalid hub makes the process exit, and a
hub whose start fails (empty remote listing) prevents the running phase. -/
theorem C6_failure_aborts_process_witness :
    startProcess [hubBad, hubGood] remote0 = ProcessOutcome.exited 1 ∧
    isRunning (startProcess [hubGood] (fun _ => [])) = false :=
  ⟨(C6_failure_aborts_process [hubBad, hubGood] remote0).1 (by decide),
   (C6_failure_aborts_process [hubGood] (fun _ => [])).2 (by decide)⟩

end ArtnetHue
